/-
  Verification of `github/trending.py` (github-trending daily report script).

  Shallow embedding: Python strings are Lean `String`s (with `List Char`
  helpers for the character-level operations), Python dicts that the code
  builds with fixed keys become Lean structures, insertion-ordered dicts
  with dynamic keys become association lists, exceptions become
  `Except String`, and `None` becomes `Option.none`.  External library
  effects (the HTTP GET, the OpenAI chat call, `json.loads`, `json.dumps`,
  the file write and the Resend send) are oracle parameters supplied by the
  environment; everything the script itself computes is embedded from the
  source.
-/
import Mathlib

set_option autoImplicit false

namespace GithubTrending

/-! ## Definitions embedded from the source

### Python string primitives

`str.strip()` removes leading and trailing whitespace; the whitespace set
for ASCII text is space, tab, newline, carriage return, vertical tab and
form feed.  `str.replace(old, "")` with a single-character `old` removes
every occurrence of that character. -/

def pyIsSpace (c : Char) : Bool :=
  c == ' ' || c == '\t' || c == '\n' || c == '\r' || c == '\x0b' || c == '\x0c'

def pyStripChars (l : List Char) : List Char :=
  ((l.dropWhile pyIsSpace).reverse.dropWhile pyIsSpace).reverse

def pyStrip (s : String) : String :=
  String.mk (pyStripChars s.data)

def removeChar (c : Char) (l : List Char) : List Char :=
  l.filter (fun a => a != c)

/-- `h2.text.strip().replace('\n', '').replace(' ', '')` from
`fetch_trending` (trending.py line 37), at the character-list level. -/
def normalizeTitleChars (l : List Char) : List Char :=
  removeChar ' ' (removeChar '\n' (pyStripChars l))

/-- The Extractor's title normalization (trending.py line 37). -/
def normalizeTitle (s : String) : String :=
  String.mk (normalizeTitleChars s.data)

/-! ### Data model of the Source Extractor

A `Repo` is the dict built by `fetch_trending` for each trending repository
(trending.py lines 56-63).  An `Article` is one `article.Box-row` container
as seen through the five CSS selectors the code applies to it: each field
holds the text (and, for the title anchor, the href) of the selected
element, or `none` when the selector matches nothing.  An `HttpResponse`
is the outcome of `requests.get`: a status code plus the article containers
BeautifulSoup finds in the body. -/

structure TitleLink where
  text : String
  href : String
deriving DecidableEq

structure Article where
  titleLink : Option TitleLink
  descriptionText : Option String
  languageText : Option String
  starsText : Option String
  starsTodayText : Option String
deriving DecidableEq

structure Repo where
  name : String
  url : String
  description : String
  language : String
  stars : String
  stars_today : String
deriving DecidableEq

structure HttpResponse where
  status : Nat
  articles : List Article

/-- The per-container extraction of `fetch_trending` (trending.py lines
30-63): skip the container when the `h2.h3 a` selector finds nothing,
otherwise build the repo dict, stripping each optional text and
substituting the placeholder when the element is absent. -/
def parseArticle (a : Article) : Option Repo :=
  match a.titleLink with
  | none => none
  | some h2 =>
      some {
        name := normalizeTitle h2.text
        url := "https://github.com" ++ h2.href
        description := match a.descriptionText with
          | some p => pyStrip p
          | none => "No description provided."
        language := match a.languageText with
          | some s => pyStrip s
          | none => "Unknown"
        stars := match a.starsText with
          | some s => pyStrip s
          | none => "0"
        stars_today := match a.starsTodayText with
          | some s => pyStrip s
          | none => "" }

/-- `fetch_trending` (trending.py lines 17-65).  The network-level outcome
of `requests.get` is the oracle argument: `.error` if the GET itself raised,
`.ok` with the response otherwise.  A non-200 status raises
`Exception(f"Failed to load page {url}: {response.status_code}")`. -/
def fetch_trending (response : Except String HttpResponse) :
    Except String (List Repo) :=
  match response with
  | .error e => .error e
  | .ok resp =>
      if resp.status ≠ 200 then
        .error ("Failed to load page https://github.com/trending: " ++
          toString resp.status)
      else
        .ok (resp.articles.filterMap parseArticle)

/-- Well-formedness of one container: if the title anchor is present, its
text has at least one non-whitespace character (a real listing shows
"owner / repo" there). -/
def articleTitleOk (a : Article) : Bool :=
  match a.titleLink with
  | some h2 => h2.text.data.any (fun c => !(pyIsSpace c))
  | none => true

/-! ### Concrete inputs used by the claim theorems and witnesses -/

def c7Articles : List Article :=
  [ ⟨some ⟨"\n      owner /\n\n      repo\n", "/owner/repo"⟩,
      some " A sample tool. ", some "Rust", some " 1,234 ",
      some " 56 stars today "⟩,
    ⟨none, some "container without a title anchor", none, none, none⟩ ]

def c7Response : HttpResponse := { status := 200, articles := c7Articles }

/-! ### Enrichment data model and the fallback generator

`AiData` is the JSON object shape that `analyze_with_ai` requests from the
model and that `get_mock_ai_data` builds: `summary`, `stats`,
`language_distribution` (insertion-ordered dict, modelled as an association
list) and `projects`. -/

structure AiStats where
  total_projects : Nat
  average_score : Rat
  language_count : Nat
deriving DecidableEq

structure AiProject where
  name : String
  translation : String
  score : Int
  tech_stack : List String
  is_recommended : Bool
deriving DecidableEq

structure AiData where
  summary : String
  stats : AiStats
  language_distribution : List (String × List String)
  projects : List AiProject
deriving DecidableEq

/-- The per-language placeholder tag (trending.py line 124). -/
def langTag (lang : String) : String :=
  if lang == "Go" then "DevOps" else if lang == "Python" then "AI/LLM" else "Web"

/-- One step of the `languages` dict construction (trending.py lines
119-124): create the key with an empty list when absent, then append the
tag for this repo. -/
def addLang (m : List (String × List String)) (lang tag : String) :
    List (String × List String) :=
  let m1 := if m.any (fun p => p.1 == lang) then m else m ++ [(lang, [])]
  m1.map (fun p => if p.1 == lang then (p.1, p.2 ++ [tag]) else p)

def buildLanguages (repos : List Repo) : List (String × List String) :=
  repos.foldl (fun m r => addLang m r.language (langTag r.language)) []

/-- The `mock_translations` dict (trending.py lines 129-138), seen through
the `dict.get` lookup applied to it.  The values are the literal characters
of the source file. -/
def mock_translations (k : String) : Option String :=
  if k == "openclaw" then some "\u00e4\u00b8\u20ac\u00e4\u00b8\u00aa\u00e5\u2026\u00a8\u00e5\u00b9\u00b3\u00e5\u00b0\u00e7\u0161\u201e\u00e4\u00b8\u00aa\u00e4\u00ba\u00ba AI \u00e5\u0160\u00a9\u00e6\u2030\u2039\u00ef\u00bc\u0152\u00e6\u201d\u00af\u00e6\u0152\u00e4\u00bb\u00bb\u00e4\u00bd\u2022\u00e6\u201c\u00e4\u00bd\u0153\u00e7\u00b3\u00bb\u00e7\u00bb\u0178\u00ef\u00bc\u0152\u00e9\u2021\u2021\u00e7\u201d\u00a8\u00e7\u2039\u00ac\u00e7\u2030\u00b9\u00e7\u0161\u201e\u00e9\u00be\u2122\u00e8\u2122\u00be\u00e9\u00a3\u00e6\u00a0\u00bc\u00e8\u00ae\u00be\u00e8\u00ae\u00a1\u00e3\u20ac\u201a"
  else if k == "system_prompts_leaks" then some "\u00e6\u201d\u00b6\u00e9\u203a\u2020\u00e4\u00ba\u2020\u00e6\u00a5\u00e8\u2021\u00aa ChatGPT\u00e3\u20acClaude \u00e5\u2019\u0152 Gemini \u00e7\u00ad\u2030\u00e6\u00b5\u00e8\u00a1\u0152\u00e8\u0160\u00e5\u00a4\u00a9\u00e6\u0153\u00ba\u00e5\u2122\u00a8\u00e4\u00ba\u00ba\u00e7\u0161\u201e\u00e7\u00b3\u00bb\u00e7\u00bb\u0178\u00e6\u00e7\u00a4\u00ba\u00e8\u00af\u00ef\u00bc\u02c6System Prompts\u00ef\u00bc\u2030\u00e3\u20ac\u201a"
  else if k == "kimi-cli" then some "Kimi Code \u00e7\u0161\u201e\u00e5\u2018\u00bd\u00e4\u00bb\u00a4\u00e8\u00a1\u0152\u00e6\u00a5\u00e5\u00a3\u00e7\u2030\u02c6\u00e6\u0153\u00ac\u00ef\u00bc\u0152\u00e6\u2014\u00a8\u00e5\u0153\u00a8\u00e6\u02c6\u00e4\u00b8\u00ba\u00e4\u00bd\u00a0\u00e7\u0161\u201e\u00e4\u00b8\u2039\u00e4\u00b8\u20ac\u00e4\u00b8\u00aa CLI \u00e6\u2122\u00ba\u00e8\u0192\u00bd\u00e4\u00bb\u00a3\u00e7\u2020\u00e3\u20ac\u201a"
  else if k == "ext-apps" then some "MCP \u00e5\u00ba\u201d\u00e7\u201d\u00a8\u00e5\u00e8\u00ae\u00ae\u00e7\u0161\u201e\u00e5\u00ae\u02dc\u00e6\u2013\u00b9\u00e8\u00a7\u201e\u00e8\u0152\u0192\u00e4\u00b8 SDK \u00e4\u00bb\u201c\u00e5\u00ba\u201c\u00ef\u00bc\u0152\u00e5\u00ae\u0161\u00e4\u00b9\u2030\u00e4\u00ba\u2020\u00e5\u00b5\u0152\u00e5\u2026\u00a5\u00e5\u00bc AI \u00e8\u0160\u00e5\u00a4\u00a9\u00e6\u0153\u00ba\u00e5\u2122\u00a8\u00e4\u00ba\u00ba\u00e7\u0161\u201e\u00e6\u00a0\u2021\u00e5\u2021\u2020\u00e3\u20ac\u201a"
  else if k == "memU" then some "\u00e4\u00b8\u201c\u00e4\u00b8\u00ba openclaw \u00e7\u00ad\u2030 24/7 \u00e4\u00b8\u00bb\u00e5\u0160\u00a8\u00e4\u00bb\u00a3\u00e7\u2020\u00e8\u00ae\u00be\u00e8\u00ae\u00a1\u00e7\u0161\u201e\u00e8\u00ae\u00b0\u00e5\u00bf\u2020\u00e7\u00b3\u00bb\u00e7\u00bb\u0178\u00e3\u20ac\u201a"
  else if k == "vault" then some "HashiCorp \u00e6\u00a8\u00e5\u2021\u00ba\u00e7\u0161\u201e\u00e6\u0153\u00ba\u00e5\u00af\u2020\u00e7\u00ae\u00a1\u00e7\u2020\u00e5\u00b7\u00a5\u00e5\u2026\u00b7\u00ef\u00bc\u0152\u00e6\u00e4\u00be\u203a\u00e5\u0160\u00a0\u00e5\u00af\u2020\u00e5\u00b3\u00e6\u0153\u00e5\u0160\u00a1\u00e5\u2019\u0152\u00e7\u2030\u00b9\u00e6\u0192\u00e8\u00ae\u00bf\u00e9\u2014\u00ae\u00e7\u00ae\u00a1\u00e7\u2020\u00e5\u0160\u0178\u00e8\u0192\u00bd\u00e3\u20ac\u201a"
  else if k == "protobuf" then some "Google \u00e7\u0161\u201e\u00e6\u2022\u00b0\u00e6\u00ae\u00e4\u00ba\u00a4\u00e6\u00a2\u00e6\u00a0\u00bc\u00e5\u00bc\u00ef\u00bc\u02c6Protocol Buffers\u00ef\u00bc\u2030\u00ef\u00bc\u0152\u00e4\u00b8\u20ac\u00e7\u00a7\u00e8\u00bd\u00bb\u00e9\u2021\u00e7\u00ba\u00a7\u00e3\u20ac\u00e9\u00ab\u02dc\u00e6\u2022\u02c6\u00e7\u0161\u201e\u00e7\u00bb\u201c\u00e6\u201e\u00e5\u0152\u2013\u00e6\u2022\u00b0\u00e6\u00ae\u00e5\u00ad\u02dc\u00e5\u201a\u00a8\u00e6\u00a0\u00bc\u00e5\u00bc\u00e3\u20ac\u201a"
  else if k == "whatsapp-web.js" then some "\u00e4\u00b8\u20ac\u00e4\u00b8\u00aa\u00e7\u201d\u00a8\u00e4\u00ba Node.js \u00e7\u0161\u201e WhatsApp \u00e5\u00ae\u00a2\u00e6\u02c6\u00b7\u00e7\u00ab\u00af\u00e5\u00ba\u201c\u00ef\u00bc\u0152\u00e9\u20ac\u0161\u00e8\u00bf\u2021\u00e8\u00bf\u00e6\u00a5 WhatsApp Web \u00e6\u00b5\u00e8\u00a7\u02c6\u00e5\u2122\u00a8\u00e5\u00ba\u201d\u00e7\u201d\u00a8\u00e5\u00ae\u00e7\u00b0\u00e5\u0160\u0178\u00e8\u0192\u00bd\u00e3\u20ac\u201a"
  else none

/-- `r["name"].split('/')[-1]` (trending.py line 144); `str.split` on a
non-empty separator never returns an empty list, so `[-1]` is total. -/
def shortName (name : String) : String :=
  (name.splitOn "/").getLastD ""

/-- trending.py lines 145-150: the dict lookup, falling back to the generic
demo sentence interpolating the language.  Every dict value is a non-empty
string, so Python's `if not translation:` is exactly the `None` test; a
structured `Repo` always carries its `language`, so `r.get("language", ...)`
is `r.language`. -/
def mockTranslationFor (r : Repo) : String :=
  match mock_translations (shortName r.name) with
  | some t => t
  | none => "\u00e8\u00bf\u2122\u00e6\u02dc\u00af\u00e4\u00b8\u20ac\u00e4\u00b8\u00aa\u00e5\u0178\u00ba\u00e4\u00ba " ++ r.language ++ " \u00e7\u0161\u201e\u00e7\u0192\u00ad\u00e9\u2014\u00a8\u00e5\u00bc\u20ac\u00e6\u00ba\u00e9\u00a1\u00b9\u00e7\u203a\u00ae\u00e3\u20ac\u201a\u00e5\u0153\u00a8\u00e7\u0153\u0178\u00e5\u00ae\u00e6\u00a8\u00a1\u00e5\u00bc\u00e4\u00b8\u2039\u00ef\u00bc\u0152AI \u00e4\u00bc\u0161\u00e8\u2021\u00aa\u00e5\u0160\u00a8\u00e5\u00b0\u2020\u00e9\u00a1\u00b9\u00e7\u203a\u00ae\u00e7\u0161\u201e\u00e8\u2039\u00b1\u00e6\u2013\u2021\u00e7\u00ae\u20ac\u00e4\u00bb\u2039\u00e7\u00bf\u00bb\u00e8\u00af\u2018\u00e4\u00b8\u00ba\u00e5\u2021\u2020\u00e7\u00a1\u00ae\u00e3\u20ac\u00e6\u00b5\u00e7\u2022\u2026\u00e7\u0161\u201e\u00e4\u00b8\u00ad\u00e6\u2013\u2021\u00ef\u00bc\u0152\u00e5\u00b8\u00ae\u00e5\u0160\u00a9\u00e6\u201a\u00a8\u00e5\u00bf\u00ab\u00e9\u20ac\u0178\u00e4\u00ba\u2020\u00e8\u00a7\u00a3\u00e5\u2026\u00b6\u00e6\u00a0\u00b8\u00e5\u00bf\u0192\u00e5\u0160\u0178\u00e8\u0192\u00bd\u00e4\u00b8\u00e6\u0160\u20ac\u00e6\u0153\u00af\u00e7\u2030\u00b9\u00e7\u201a\u00b9\u00e3\u20ac\u201a"

/-- One enriched project of the fallback generator (trending.py lines
140-158); `i` is the 0-based position of the record in the input. -/
def mockProject (i : Nat) (r : Repo) : AiProject :=
  let score : Int := if i < 3 then 9 else 7
  { name := r.name
    translation := mockTranslationFor r
    score := score
    tech_stack := [r.language, "Open Source", "Hot"]
    is_recommended := decide (score ≥ 8) }

/-- The fixed demo narrative (trending.py line 161). -/
def mockSummary : String := "\u00e3\u20ac\u00e6\u00bc\u201d\u00e7\u00a4\u00ba\u00e6\u00a8\u00a1\u00e5\u00bc\u00e3\u20ac\u2018\u00e4\u00bb\u0160\u00e6\u2014\u00a5 GitHub Trending \u00e5\u2018\u02c6\u00e7\u00b0\u00e5\u2021\u00ba AI \u00e5\u201a\u00e7\u203a\u00b4\u00e5\u00ba\u201d\u00e7\u201d\u00a8\u00e7\u02c6\u2020\u00e5\u2018\u00e7\u0161\u201e\u00e8\u00b6\u2039\u00e5\u0160\u00bf\u00e3\u20ac\u201a\u00e6\u00a6\u0153\u00e5\u2022\u00e5\u2030\u00e5\u02c6\u2014\u00e7\u0161\u201e\u00e9\u00a1\u00b9\u00e7\u203a\u00ae\u00e5\u00a4\u0161\u00e9\u203a\u2020\u00e4\u00b8\u00ad\u00e5\u0153\u00a8 AI Agent \u00e5\u00bc\u20ac\u00e5\u2018\u00e5\u00b7\u00a5\u00e5\u2026\u00b7\u00e4\u00b8\u00e5\u00a4\u00a7\u00e6\u00a8\u00a1\u00e5\u2039\u00e5\u00be\u00ae\u00e8\u00b0\u0192\u00e6\u00a1\u2020\u00e6\u00b6\u00e4\u00b8\u0160\u00ef\u00bc\u0152\u00e6\u02dc\u00be\u00e7\u00a4\u00ba\u00e5\u2021\u00ba\u00e5\u00bc\u20ac\u00e5\u2018\u00e8\u20ac\u2026\u00e6\u00ad\u00a3\u00e4\u00bb\u00e5\u2022\u00e7\u00ba\u00af\u00e5\u2026\u00b3\u00e6\u00b3\u00a8\u00e6\u00a8\u00a1\u00e5\u2039\u00e8\u0192\u00bd\u00e5\u0160\u203a\u00e8\u00bd\u00ac\u00e5\u2018\u00e5\u2026\u00b3\u00e6\u00b3\u00a8\u00e5\u00ba\u201d\u00e7\u201d\u00a8\u00e8\u00bd\u00e5\u0153\u00b0\u00e3\u20ac\u201aGo \u00e8\u00af\u00ad\u00e8\u00a8\u20ac\u00e5\u0153\u00a8\u00e5\u0178\u00ba\u00e7\u00a1\u20ac\u00e8\u00ae\u00be\u00e6\u2013\u00bd\u00e9\u00a2\u2020\u00e5\u0178\u0178\u00e7\u0161\u201e\u00e5\u0153\u00b0\u00e4\u00bd\u00e4\u00be\u00e7\u201e\u00b6\u00e7\u00a8\u00b3\u00e5\u203a\u00ba\u00ef\u00bc\u0152\u00e8\u20ac\u0152 Python \u00e5\u02c6\u2122\u00e7\u00bb\u00a7\u00e7\u00bb\u00ad\u00e4\u00b8\u00bb\u00e5\u00af\u00bc AI \u00e7\u201d\u0178\u00e6\u20ac\u00e3\u20ac\u201a\u00e5\u00bb\u00ba\u00e8\u00ae\u00ae\u00e9\u2021\u00e7\u201a\u00b9\u00e5\u2026\u00b3\u00e6\u00b3\u00a8\u00e5\u2030\u00e4\u00b8\u2030\u00e5\u00e7\u0161\u201e\u00e9\u00a1\u00b9\u00e7\u203a\u00ae\u00ef\u00bc\u0152\u00e5\u00ae\u0192\u00e4\u00bb\u00ac\u00e4\u00bb\u00a3\u00e8\u00a1\u00a8\u00e4\u00ba\u2020\u00e5\u00bd\u201c\u00e5\u2030\u00e5\u00bc\u20ac\u00e6\u00ba\u00e7\u00a4\u00be\u00e5\u0152\u00ba\u00e6\u0153\u20ac\u00e6\u00b4\u00bb\u00e8\u00b7\u0192\u00e7\u0161\u201e\u00e6\u0160\u20ac\u00e6\u0153\u00af\u00e6\u2013\u00b9\u00e5\u2018\u00e3\u20ac\u201a\u00ef\u00bc\u02c6\u00e6\u00b3\u00a8\u00ef\u00bc\u0161\u00e6\u00ad\u00a4\u00e4\u00b8\u00ba\u00e6\u2014\u00a0 API Key \u00e6\u2014\u00b6\u00e7\u0161\u201e\u00e6\u00bc\u201d\u00e7\u00a4\u00ba\u00e6\u2013\u2021\u00e6\u0153\u00ac\u00ef\u00bc\u0152\u00e9\u2026\u00e7\u00bd\u00ae Key \u00e5\u00e5\u00b0\u2020\u00e6\u02dc\u00be\u00e7\u00a4\u00ba\u00e7\u0153\u0178\u00e5\u00ae AI \u00e5\u02c6\u2020\u00e6\u00ef\u00bc\u2030"

/-- `get_mock_ai_data` (trending.py lines 114-169). -/
def get_mock_ai_data (repos : List Repo) : AiData :=
  let languages := buildLanguages repos
  { summary := mockSummary
    stats := { total_projects := repos.length
               average_score := 8.2
               language_count := languages.length }
    language_distribution := languages
    projects := repos.enum.map (fun p => mockProject p.1 p.2) }

def c4Repo : Repo :=
  { name := "pysolo-go/github-trending"
    url := "https://github.com/pysolo-go/github-trending"
    description := "Trending digest script"
    language := "Python"
    stars := "42"
    stars_today := "5 stars today" }

def c10Repo : Repo :=
  { name := "acme/solo"
    url := "https://github.com/acme/solo"
    description := "A single record"
    language := "Go"
    stars := "7"
    stars_today := "" }

/-! ### The Report Renderer `generate_html` (trending.py lines 171-311) -/

structure ProjectData where
  name : String
  url : String
  description : String
  language : String
  stars : String
  stars_today : String
  translation : String
  scoreRepr : String
  tech_stack : List String
  is_recommended : Bool
deriving DecidableEq

/-- `ai_projects_map = {p['name']: p for p in ai_data.get('projects', [])}`
(trending.py line 217) followed by `.get(r['name'], {})`: the dict
comprehension keeps the last entry for a duplicated name. -/
def lookupProjLast (ps : List AiProject) (n : String) : Option AiProject :=
  ps.foldl (fun acc p => if p.name == n then some p else acc) none

/-- The merge of one record with its enrichment entry (trending.py lines
219-227): `{**r, ...}` keeps the record's own fields and adds the four
enriched ones.  When the map has no entry for the record's name,
`p_ai = {}` and every `.get` default fires; a found entry carries the full
schema, so its fields are used as-is.  Python stringifies the integer score
only inside the f-strings; the model stores that rendering (`toString`,
which agrees with `str` on ints, and `"-"` for the missing-entry default). -/
def mergeProject (ai : AiData) (r : Repo) : ProjectData :=
  match lookupProjLast ai.projects r.name with
  | some p =>
      { name := r.name
        url := r.url
        description := r.description
        language := r.language
        stars := r.stars
        stars_today := r.stars_today
        translation := p.translation
        scoreRepr := toString p.score
        tech_stack := p.tech_stack
        is_recommended := p.is_recommended }
  | none =>
      { name := r.name
        url := r.url
        description := r.description
        language := r.language
        stars := r.stars
        stars_today := r.stars_today
        translation := r.description
        scoreRepr := "-"
        tech_stack := [r.language]
        is_recommended := false }

/-- The summary card (trending.py lines 181-200).  Python renders the stats
with `str`; `toString` agrees on the naturals, and differs for the rational
`average_score` only in notation (`41/5` vs `8.2`) — no claim touches this
text. -/
def summarySection (ai : AiData) : String :=
  "\n        <div class=\"summary-card\">\n            <h2>\u00e2\u0153\u00a8 \u00e4\u00bb\u0160\u00e6\u2014\u00a5\u00e9\u2021\u00e7\u201a\u00b9\u00e6\u00a8\u00e8</h2>\n            <p>" ++ ai.summary ++
  "</p>\n            <div class=\"stats-row\">\n                <div class=\"stat-item\">\n                    <strong>" ++ toString ai.stats.total_projects ++
  "</strong>\n                    <span>\u00e9\u00a1\u00b9\u00e7\u203a\u00ae\u00e6\u20ac\u00bb\u00e6\u2022\u00b0</span>\n                </div>\n                <div class=\"stat-item\">\n                    <strong>" ++ toString ai.stats.average_score ++
  "</strong>\n                    <span>\u00e5\u00b9\u00b3\u00e5\u2021\u00e6\u00a8\u00e8\u00e5\u02c6\u2020</span>\n                </div>\n                <div class=\"stat-item\">\n                    <strong>" ++ toString ai.stats.language_count ++
  "</strong>\n                    <span>\u00e8\u00af\u00ad\u00e8\u00a8\u20ac\u00e7\u00a7\u00e7\u00b1\u00bb</span>\n                </div>\n            </div>\n        </div>\n        "

/-- The `lang_dist_html` accumulation loop (trending.py lines 203-207). -/
def langDistHtml (dist : List (String × List String)) : String :=
  dist.foldl (fun acc q =>
    acc ++ ("<p><strong>" ++ q.1 ++ "</strong>: " ++ String.intercalate ", " q.2 ++ "</p>")) ""

/-- The language-distribution block (trending.py lines 209-214). -/
def langSection (ai : AiData) : String :=
  "\n        <div class=\"lang-section\">\n            <h3>\u011f\u0178\u201c\u0160 \u00e8\u00af\u00ad\u00e8\u00a8\u20ac\u00e5\u02c6\u2020\u00e5\u00b8\u0192</h3>\n            " ++ langDistHtml ai.language_distribution ++ "\n        </div>\n        "

/-- `tags_html` (trending.py line 233). -/
def tagsHtml (ts : List String) : String :=
  ts.foldl (fun acc t => acc ++ ("<span class=\"tag\">" ++ t ++ "</span>")) ""

def badgeHead : String := "<div class=\"recommend-badge\">\u011f\u0178\u201d\u00a5 \u00e9\u00ab\u02dc\u00e6\u00a8\u00e8 ("

def badgeTail : String := "/10)</div>"

def scoreHead : String := "<div class=\"score-text\">\u00e6\u00a8\u00e8\u00e5\u02c6\u2020: "

def scoreTail : String := "/10</div>"

def recommendBadgeOf (scoreRepr : String) : String :=
  badgeHead ++ (scoreRepr ++ badgeTail)

def scoreTextOf (scoreRepr : String) : String :=
  scoreHead ++ (scoreRepr ++ scoreTail)

/-- `recommend_badge` (trending.py line 234): the distinct recommendation
badge when `is_recommended` is truthy, the plain score line otherwise. -/
def recommend_badge (p : ProjectData) : String :=
  if p.is_recommended then recommendBadgeOf p.scoreRepr
  else scoreTextOf p.scoreRepr

/-- One entry of the project list (trending.py lines 231-253);
`rank = idx + 1`. -/
def projectEntry (rank : Nat) (p : ProjectData) : String :=
  "\n        <div class=\"repo\">\n            <div class=\"repo-header\">\n                <span class=\"rank\">#" ++ toString rank ++
  "</span>\n                <a href=\"" ++ p.url ++
  "\" class=\"repo-name\">" ++ p.name ++
  "</a>\n            </div>\n            <p class=\"repo-desc\">" ++ p.translation ++
  "</p>\n            " ++ recommend_badge p ++
  "\n            <div class=\"repo-meta\">\n                <div class=\"tech-stack\">\n                    <strong>\u00e4\u00b8\u00bb\u00e8\u00a6\u00e6\u0160\u20ac\u00e6\u0153\u00af\u00e6\u00a0\u02c6:</strong> " ++ tagsHtml p.tech_stack ++
  "\n                </div>\n                <div class=\"stars-info\">\n                    <span>\u00e2\u00ad " ++ p.stars ++
  "</span> &bull; <span>" ++ p.stars_today ++
  "</span>\n                </div>\n            </div>\n        </div>\n        "

/-- The `projects_html` accumulation over `enumerate(projects_data)`
(trending.py lines 230-253). -/
def projectsHtml (ps : List ProjectData) : String :=
  ps.enum.foldl (fun acc q => acc ++ projectEntry (q.1 + 1) q.2) ""

/-- The document template (trending.py lines 255-310), CSS included. -/
def htmlDocument (dateStr : String) (repoCount : Nat)
    (summary_section lang_section projects_html : String) : String :=
  "\n    <!DOCTYPE html>\n    <html>\n    <head>\n        <meta charset=\"utf-8\">\n        <style>\n            body \x7b font-family: -apple-system, BlinkMacSystemFont, \"Segoe UI\", Roboto, Helvetica, Arial, sans-serif; line-height: 1.6; color: #333; max-width: 800px; margin: 0 auto; padding: 20px; background-color: #f6f8fa; \x7d\n            .container \x7b background: white; padding: 40px; border-radius: 8px; box-shadow: 0 1px 3px rgba(0,0,0,0.1); \x7d\n            .header \x7b margin-bottom: 30px; border-bottom: 1px solid #eee; padding-bottom: 20px; \x7d\n            .header h1 \x7b margin: 0; color: #24292e; font-size: 24px; \x7d\n            .header p \x7b color: #586069; margin: 5px 0 0 0; \x7d\n            \n            .summary-card \x7b background-color: #f1f8ff; border: 1px solid #c8e1ff; border-radius: 6px; padding: 20px; margin-bottom: 30px; \x7d\n            .summary-card h2 \x7b margin-top: 0; font-size: 18px; color: #0366d6; \x7d\n            .stats-row \x7b display: flex; gap: 40px; margin-top: 20px; border-top: 1px solid #c8e1ff; padding-top: 15px; \x7d\n            .stat-item \x7b display: flex; flex-direction: column; \x7d\n            .stat-item strong \x7b font-size: 20px; color: #24292e; \x7d\n            .stat-item span \x7b font-size: 12px; color: #586069; \x7d\n            \n            .lang-section \x7b margin-bottom: 30px; \x7d\n            .lang-section h3 \x7b font-size: 18px; border-left: 4px solid #2ea44f; padding-left: 10px; margin-bottom: 15px; \x7d\n            .lang-section p \x7b margin: 5px 0; font-size: 14px; color: #444; \x7d\n            \n            .repo \x7b border-bottom: 1px solid #eee; padding: 25px 0; \x7d\n            .repo:last-child \x7b border-bottom: none; \x7d\n            .repo-header \x7b font-size: 18px; font-weight: 600; margin-bottom: 8px; \x7d\n            .rank \x7b color: #6a737d; margin-right: 8px; font-weight: normal; \x7d\n            .repo-name \x7b color: #0366d6; text-decoration: none; \x7d\n            .repo-desc \x7b margin: 0 0 12px 0; color: #24292e; font-size: 15px; \x7d\n            \n            .recommend-badge \x7b color: #d73a49; font-weight: 600; font-size: 14px; margin-bottom: 10px; \x7d\n            .score-text \x7b color: #586069; font-size: 14px; margin-bottom: 10px; \x7d\n            \n            .repo-meta \x7b display: flex; flex-direction: column; gap: 8px; font-size: 13px; color: #586069; background: #fafbfc; padding: 12px; border-radius: 6px; \x7d\n            .tech-stack \x7b margin-bottom: 4px; \x7d\n            .tag \x7b display: inline-block; background-color: #f1f8ff; color: #0366d6; padding: 2px 8px; border-radius: 12px; font-size: 12px; margin-right: 4px; border: 1px solid #c8e1ff; \x7d\n            .stars-info \x7b color: #6a737d; \x7d\n        </style>\n    </head>\n    <body>\n        <div class=\"container\">\n            <div class=\"header\">\n                <h1>\u011f\u0178\u0161\u20ac GitHub Trending \u00e6\u00af\u00e6\u2014\u00a5\u00e6\u00a8\u00e9\u20ac</h1>\n                <p>" ++ dateStr ++
  " &bull; " ++ toString repoCount ++
  " \u00e4\u00b8\u00aa\u00e7\u0192\u00ad\u00e9\u2014\u00a8\u00e9\u00a1\u00b9\u00e7\u203a\u00ae</p>\n            </div>\n            \n            " ++ summary_section ++
  "\n            " ++ lang_section ++
  "\n            \n            <div class=\"projects-list\">\n                " ++ projects_html ++
  "\n            </div>\n        </div>\n    </body>\n    </html>\n    "

/-- `generate_html` (trending.py lines 171-311); `dateStr` is the
`datetime.now().strftime` oracle.

In the source, lines 180-227 — the assignments of `summary_section`,
`lang_section`, `ai_projects_map` and `projects_data` — sit indented inside
the `if not ai_data:` block opened on line 175 (note the duplicated
`# Summary` comment at two indentation levels, lines 179-180).  A present
EnrichmentResult is a non-empty dict, hence truthy, so when `ai_data` is
present none of those names is assigned and the loop header
`enumerate(projects_data)` on line 231 raises
`NameError: name 'projects_data' is not defined`.  Only the absent case
(`None` enters the mock branch) reaches the document template. -/
def generate_html (dateStr : String) (repos : List Repo)
    (ai_data : Option AiData) : Except String String :=
  match ai_data with
  | none =>
      let ai := get_mock_ai_data repos
      let summary_section := summarySection ai
      let lang_section := langSection ai
      let projects_data := repos.map (fun r => mergeProject ai r)
      .ok (htmlDocument dateStr repos.length summary_section lang_section
        (projectsHtml projects_data))
  | some _ => .error "NameError: name 'projects_data' is not defined"

def c1Repo : Repo :=
  { name := "acme/tool"
    url := "https://github.com/acme/tool"
    description := "A sample description"
    language := "Go"
    stars := "10"
    stars_today := "3 stars today" }

def c1Ai : AiData :=
  { summary := "real analysis text"
    stats := { total_projects := 1, average_score := 9, language_count := 1 }
    language_distribution := [("Go", ["tools"])]
    projects := [⟨"acme/tool", "translated summary", 9, ["Go", "CLI"], true⟩] }

def c3Repo : Repo :=
  { name := "x/y"
    url := "https://github.com/x/y"
    description := "the record's own summary"
    language := "Rust"
    stars := "5"
    stars_today := "" }

def c3Ai : AiData :=
  { summary := "s"
    stats := { total_projects := 1, average_score := 7, language_count := 1 }
    language_distribution := []
    projects := [⟨"other/name", "unrelated translation", 7, ["C"], false⟩] }

/-! ### The Enrichment Engine `analyze_with_ai` (trending.py lines 67-112) -/

/-- The request prompt (trending.py lines 75-97); `serialized` stands for
`json.dumps(repos_to_analyze, indent=2)`. -/
def buildPrompt (serialized : String) : String :=
  "\n    You are a technical editor for a \"GitHub Trending Daily\" newsletter.\n    Analyze the following list of trending GitHub repositories and provide a comprehensive summary in JSON format.\n    \n    Repositories:\n    " ++ serialized ++ "\n    \n    Requirements:\n    1. \"summary\": A high-quality, insightful paragraph (in Chinese) analyzing today's trends. \n       - Identify themes (e.g., \"AI Agents explosion\", \"Rust tooling maturity\").\n       - Highlight the most significant 2-3 projects and *why* they matter.\n       - Use professional technical tone but easy to read.\n    2. \"stats\": Calculate total_projects, average_score (out of 10, strictly based on potential impact/novelty), and language_count.\n    3. \"language_distribution\": A mapping of Language -> list of concise tech keywords/tags derived from the projects in that language.\n    4. \"projects\": A list of enriched project objects, same order as input. Each object must have:\n       - \"name\": same as input\n       - \"translation\": Chinese translation of the description. Concise and accurate.\n       - \"score\": A score from 1-10. Be strict. 9-10 for game changers, 7-8 for solid tools, <6 for niche/toy projects.\n       - \"tech_stack\": A list of 3-5 key technologies/tags (e.g., \"LLM\", \"Rust\", \"Web\", \"CLI\").\n       - \"is_recommended\": Boolean, true if score >= 8.\n    \n    Return ONLY valid JSON.\n    "

/-- `analyze_with_ai` (trending.py lines 67-112).  Oracles: `dumps` for
`json.dumps` (total on string-field records), `apiCall` for the chat
completion request (`.error` when the call raises), `parseJson` for
`json.loads` on the returned content (`.error` when the content is not
valid JSON).  The `try` of lines 99-112 wraps exactly the API call and the
parse and its handler returns `None`; the client-absent case returns `None`
before it.  The outer `Except` layer is the function's own exception
channel: a `.error` there would be an uncaught exception. -/
def analyze_with_ai (clientConfigured : Bool)
    (dumps : List Repo → String)
    (apiCall : String → Except String String)
    (parseJson : String → Except String AiData)
    (repos : List Repo) : Except String (Option AiData) :=
  if !clientConfigured then .ok none
  else
    let repos_to_analyze := repos.take 15
    let prompt := buildPrompt (dumps repos_to_analyze)
    match apiCall prompt with
    | .error _ => .ok none
    | .ok content =>
        match parseJson content with
        | .error _ => .ok none
        | .ok j => .ok (some j)

def c5Dumps : List Repo → String := fun _ => "[]"

def c5ApiFail : String → Except String String :=
  fun _ => .error "Connection error"

def c5ParseFail : String → Except String AiData :=
  fun _ => .error "Expecting value: line 1 column 1 (char 0)"

/-! ### The `__main__` driver (trending.py lines 335-367) -/

structure RunEnv where
  response : Except String HttpResponse
  clientConfigured : Bool
  dumps : List Repo → String
  apiCall : String → Except String String
  parseJson : String → Except String AiData
  writeOk : Bool
  resendKeySet : Bool
  receiverSet : Bool
  sendOk : Bool
  dateStr : String

structure RunResult where
  exitCode : Nat
  previewWritten : Bool
  sendAttempted : Bool
deriving DecidableEq

/-- `send_email` (trending.py lines 313-333): with the receiver missing it
logs and returns without a request; otherwise it submits one request and
catches (logs) any failure.  It never raises and cannot change the exit
code; the observable kept here is whether the send request was submitted. -/
def send_email (receiverSet : Bool) (sendOk : Bool) : Bool :=
  receiverSet

/-- The `ai_data` computed on trending.py lines 342-348: `None` unless the
client is configured, in which case `analyze_with_ai` runs (by C5 its
`.error` arm is unreachable, but the match must be total). -/
def mainAiData (env : RunEnv) (repos : List Repo) : Option AiData :=
  if env.clientConfigured then
    match analyze_with_ai env.clientConfigured env.dumps env.apiCall
        env.parseJson repos with
    | .ok r => r
    | .error _ => none
  else none

/-- The `__main__` block (trending.py lines 335-367).  The whole run sits in
one `try:`; any exception reaching it prints and calls `exit(1)`.  The
preview write (lines 354-356) is inside that block, so a failing
`open`/`write` (`writeOk = false`) aborts the run with exit code 1 before
any send; the email send runs only when both `RESEND_API_KEY` and
`RECEIVER_EMAIL` are configured, after a successful write; `send_email`
swallows its own failures, so a failed send leaves exit code 0. -/
def mainRun (env : RunEnv) : RunResult :=
  match fetch_trending env.response with
  | .error _ => { exitCode := 1, previewWritten := false, sendAttempted := false }
  | .ok trending_repos =>
      match generate_html env.dateStr trending_repos
          (mainAiData env trending_repos) with
      | .error _ =>
          { exitCode := 1, previewWritten := false, sendAttempted := false }
      | .ok _html =>
          if env.writeOk then
            if env.resendKeySet && env.receiverSet then
              { exitCode := 0, previewWritten := true
                sendAttempted := send_email env.receiverSet env.sendOk }
            else
              { exitCode := 0, previewWritten := true, sendAttempted := false }
          else
            { exitCode := 1, previewWritten := false, sendAttempted := false }

def c6Env : RunEnv :=
  { response := .ok { status := 500, articles := [] }
    clientConfigured := false
    dumps := fun _ => "[]"
    apiCall := fun _ => .error "unused"
    parseJson := fun _ => .error "unused"
    writeOk := true
    resendKeySet := false
    receiverSet := false
    sendOk := true
    dateStr := "2026-10-12" }

def c2Env : RunEnv :=
  { response := .ok { status := 200, articles := c7Articles }
    clientConfigured := false
    dumps := fun _ => "[]"
    apiCall := fun _ => .error "unused"
    parseJson := fun _ => .error "unused"
    writeOk := false
    resendKeySet := true
    receiverSet := true
    sendOk := true
    dateStr := "2026-10-12" }

/-! ## Theorems

### Lemmas about strip/normalize -/

theorem head?_dropWhile_false {p : Char → Bool} {l : List Char} {c : Char}
    (h : (l.dropWhile p).head? = some c) : p c = false := by
  induction l with
  | nil => simp [List.dropWhile] at h
  | cons a l ih =>
      rw [List.dropWhile_cons] at h
      split at h
      · exact ih h
      · rename_i hpa
        have hac : a = c := by simpa using h
        subst hac
        cases hb : p a with
        | false => rfl
        | true => exact absurd hb hpa

theorem getLast?_dropWhile_of_ne_nil {p : Char → Bool} {l : List Char}
    (h : l.dropWhile p ≠ []) : (l.dropWhile p).getLast? = l.getLast? := by
  induction l with
  | nil => simp [List.dropWhile] at h
  | cons a l ih =>
      rw [List.dropWhile_cons] at h ⊢
      by_cases hpa : p a = true
      · rw [if_pos hpa] at h ⊢
        rw [ih h, List.getLast?_cons]
        cases l with
        | nil => simp [List.dropWhile] at h
        | cons b t => simp [List.getLast?_cons]
      · rw [if_neg hpa]

theorem dropWhile_eq_self_of_head {p : Char → Bool} {l : List Char}
    (h : ∀ c, l.head? = some c → p c = false) : l.dropWhile p = l := by
  cases l with
  | nil => rfl
  | cons a l =>
      rw [List.dropWhile_cons]
      have := h a rfl
      simp [this]

theorem pyStripChars_head? {l : List Char} {c : Char}
    (h : (pyStripChars l).head? = some c) : pyIsSpace c = false := by
  unfold pyStripChars at h
  rw [List.head?_reverse] at h
  have hne : (l.dropWhile pyIsSpace).reverse.dropWhile pyIsSpace ≠ [] := by
    intro hnil
    rw [hnil] at h
    simp at h
  rw [getLast?_dropWhile_of_ne_nil hne, List.getLast?_reverse] at h
  exact head?_dropWhile_false h

theorem pyStripChars_getLast? {l : List Char} {c : Char}
    (h : (pyStripChars l).getLast? = some c) : pyIsSpace c = false := by
  unfold pyStripChars at h
  rw [List.getLast?_reverse] at h
  exact head?_dropWhile_false h

theorem pyStripChars_eq_self {l : List Char}
    (h1 : ∀ c, l.head? = some c → pyIsSpace c = false)
    (h2 : ∀ c, l.getLast? = some c → pyIsSpace c = false) :
    pyStripChars l = l := by
  unfold pyStripChars
  rw [dropWhile_eq_self_of_head h1]
  rw [dropWhile_eq_self_of_head (by
    intro c hc
    rw [List.head?_reverse] at hc
    exact h2 c hc)]
  exact List.reverse_reverse l

theorem head?_filter_of_head {p : Char → Bool} {l : List Char} {c : Char}
    (h : l.head? = some c) (hc : p c = true) : (l.filter p).head? = some c := by
  cases l with
  | nil => simp at h
  | cons a l =>
      simp at h
      subst h
      simp [List.filter_cons, hc]

theorem filter_mem_false {p : Char → Bool} {l : List Char}
    (h : ∀ a ∈ l, p a = true) : l.filter p = l :=
  List.filter_eq_self.mpr h

/-- Every character of the normalized title is a character of the original
title that is neither a space nor a newline. -/
theorem mem_normalizeTitleChars {l : List Char} {c : Char} :
    c ∈ normalizeTitleChars l → c ∈ pyStripChars l ∧ c ≠ '\n' ∧ c ≠ ' ' := by
  intro h
  unfold normalizeTitleChars removeChar at h
  rw [List.mem_filter] at h
  obtain ⟨h1, h2⟩ := h
  rw [List.mem_filter] at h1
  obtain ⟨h3, h4⟩ := h1
  refine ⟨h3, ?_, ?_⟩
  · simpa using h4
  · simpa using h2

theorem normalizeTitleChars_head? {l : List Char} {c : Char}
    (h : (normalizeTitleChars l).head? = some c) : pyIsSpace c = false := by
  cases hs : pyStripChars l with
  | nil =>
      unfold normalizeTitleChars removeChar at h
      rw [hs] at h
      simp at h
  | cons a t =>
      have ha : pyIsSpace a = false := pyStripChars_head? (by rw [hs]; rfl)
      have hne_n : a ≠ '\n' := fun he => by subst he; simp [pyIsSpace] at ha
      have hne_s : a ≠ ' ' := fun he => by subst he; simp [pyIsSpace] at ha
      unfold normalizeTitleChars removeChar at h
      rw [hs] at h
      have hhead := head?_filter_of_head (p := fun x => x != ' ')
        (head?_filter_of_head (p := fun x => x != '\n')
          (show (a :: t).head? = some a from rfl) (bne_iff_ne.mpr hne_n))
        (bne_iff_ne.mpr hne_s)
      rw [hhead] at h
      simp at h
      subst h
      exact ha

theorem normalizeTitleChars_getLast? {l : List Char} {c : Char}
    (h : (normalizeTitleChars l).getLast? = some c) : pyIsSpace c = false := by
  unfold normalizeTitleChars removeChar at h
  rw [← List.head?_reverse, ← List.filter_reverse, ← List.filter_reverse] at h
  cases hs : (pyStripChars l).reverse with
  | nil => rw [hs] at h; simp at h
  | cons a t =>
      have ha : pyIsSpace a = false := pyStripChars_getLast? (l := l) (by
        rw [← List.head?_reverse, hs]; rfl)
      have hne_n : a ≠ '\n' := fun he => by subst he; simp [pyIsSpace] at ha
      have hne_s : a ≠ ' ' := fun he => by subst he; simp [pyIsSpace] at ha
      rw [hs] at h
      have hhead := head?_filter_of_head (p := fun x => x != ' ')
        (head?_filter_of_head (p := fun x => x != '\n')
          (show (a :: t).head? = some a from rfl) (bne_iff_ne.mpr hne_n))
        (bne_iff_ne.mpr hne_s)
      rw [hhead] at h
      simp at h
      subst h
      exact ha

/-! ### C9: title normalization is idempotent -/

/-- Claim C9 theorem: the Extractor's title normalization (strip, then remove
all newlines and spaces) is idempotent: re-normalizing an already-normalized
string yields the same string, for every input string. -/
theorem C9_normalizeTitle_idempotent (s : String) :
    normalizeTitle (normalizeTitle s) = normalizeTitle s := by
  unfold normalizeTitle
  congr 1
  show normalizeTitleChars (normalizeTitleChars s.data) = normalizeTitleChars s.data
  set g := normalizeTitleChars s.data with hg
  have hmem : ∀ a ∈ g, a ∈ pyStripChars s.data ∧ a ≠ '\n' ∧ a ≠ ' ' :=
    fun a ha => mem_normalizeTitleChars (hg ▸ ha)
  have hstrip : pyStripChars g = g :=
    pyStripChars_eq_self
      (fun c hc => normalizeTitleChars_head? (hg ▸ hc))
      (fun c hc => normalizeTitleChars_getLast? (hg ▸ hc))
  unfold normalizeTitleChars
  rw [hstrip]
  unfold removeChar
  rw [filter_mem_false (fun a ha =>
    bne_iff_ne.mpr (hmem a (List.mem_filter.mp ha).1).2.2)]
  rw [filter_mem_false (fun a ha => bne_iff_ne.mpr (hmem a ha).2.1)]

/-! ### C7: every record carries a non-empty identifier and locator -/

theorem mem_dropWhile_of_false {p : Char → Bool} {l : List Char} {c : Char}
    (hc : c ∈ l) (hp : p c = false) : c ∈ l.dropWhile p := by
  induction l with
  | nil => simp at hc
  | cons a t ih =>
      rw [List.dropWhile_cons]
      by_cases hpa : p a = true
      · rw [if_pos hpa]
        apply ih
        rcases List.mem_cons.mp hc with rfl | h
        · rw [hp] at hpa; exact absurd hpa (by simp)
        · exact h
      · rw [if_neg hpa]; exact hc

theorem mem_pyStripChars {l : List Char} {c : Char} (hc : c ∈ l)
    (hp : pyIsSpace c = false) : c ∈ pyStripChars l := by
  unfold pyStripChars
  rw [List.mem_reverse]
  apply mem_dropWhile_of_false _ hp
  rw [List.mem_reverse]
  exact mem_dropWhile_of_false hc hp

theorem normalizeTitle_ne_empty {s : String}
    (h : ∃ c ∈ s.data, pyIsSpace c = false) : normalizeTitle s ≠ "" := by
  obtain ⟨c, hc, hp⟩ := h
  have hcn : c ∈ normalizeTitleChars s.data := by
    unfold normalizeTitleChars removeChar
    have h1 := mem_pyStripChars hc hp
    have hne_n : c ≠ '\n' := fun he => by subst he; simp [pyIsSpace] at hp
    have hne_s : c ≠ ' ' := fun he => by subst he; simp [pyIsSpace] at hp
    exact List.mem_filter.mpr
      ⟨List.mem_filter.mpr ⟨h1, bne_iff_ne.mpr hne_n⟩, bne_iff_ne.mpr hne_s⟩
  intro hemp
  unfold normalizeTitle at hemp
  have hnil : normalizeTitleChars s.data = [] := congrArg String.data hemp
  rw [hnil] at hcn
  simp at hcn

theorem github_url_ne_empty (h : String) : "https://github.com" ++ h ≠ "" := by
  intro he
  have hlen := congrArg String.length he
  rw [String.length_append] at hlen
  have h18 : ("https://github.com" : String).length = 18 := rfl
  have h0 : ("" : String).length = 0 := rfl
  rw [h18, h0] at hlen
  omega

/-- Claim C7 theorem: for well-formed listing markup (every present title
anchor has some non-whitespace text), every `Repo` produced by
`fetch_trending` has a non-empty `name` and a non-empty `url`, and a
container whose title anchor is absent is skipped entirely (it yields no
`Repo`). -/
theorem C7_extractor_nonempty_fields (resp : HttpResponse) (repos : List Repo)
    (hfetch : fetch_trending (.ok resp) = .ok repos)
    (hwf : resp.articles.all articleTitleOk = true) :
    (∀ r ∈ repos, r.name ≠ "" ∧ r.url ≠ "") ∧
    (∀ a ∈ resp.articles, a.titleLink = none → parseArticle a = none) := by
  have hrepos : repos = resp.articles.filterMap parseArticle := by
    simp only [fetch_trending] at hfetch
    by_cases hst : resp.status ≠ 200
    · rw [if_pos hst] at hfetch
      exact Except.noConfusion hfetch
    · rw [if_neg hst] at hfetch
      injection hfetch with h
      exact h.symm
  subst hrepos
  constructor
  · intro r hr
    rw [List.mem_filterMap] at hr
    obtain ⟨a, ha, hpa⟩ := hr
    cases hlink : a.titleLink with
    | none => simp [parseArticle, hlink] at hpa
    | some h2 =>
        have hok := List.all_eq_true.mp hwf a ha
        simp only [articleTitleOk, hlink] at hok
        rw [List.any_eq_true] at hok
        obtain ⟨c, hc, hcp⟩ := hok
        simp only [parseArticle, hlink, Option.some.injEq] at hpa
        subst hpa
        refine ⟨normalizeTitle_ne_empty ⟨c, hc, ?_⟩, github_url_ne_empty _⟩
        simpa using hcp
  · intro a _ hlink
    simp [parseArticle, hlink]

/-- Witness for C7 at a concrete two-container page (the second container
lacks the title anchor). -/
theorem C7_witness :
    (∀ r ∈ c7Response.articles.filterMap parseArticle,
        r.name ≠ "" ∧ r.url ≠ "") ∧
    (∀ a ∈ c7Response.articles, a.titleLink = none → parseArticle a = none) :=
  C7_extractor_nonempty_fields c7Response
    (c7Response.articles.filterMap parseArticle) rfl (by decide)

/-! ### C4: the fallback generator is total and structurally complete -/

/-- Claim C4 theorem: for every non-empty record sequence, the fallback
generator returns a structurally complete `AiData` — it is a total function
into the structured result type, so narrative, stats, language distribution
and per-item list are always present and it never raises — whose `projects`
list has exactly one entry per input record; `total_projects` and
`language_count` agree with the returned data. -/
theorem C4_mock_complete (repos : List Repo) (h : repos ≠ []) :
    (get_mock_ai_data repos).projects.length = repos.length ∧
    (get_mock_ai_data repos).stats.total_projects = repos.length ∧
    (get_mock_ai_data repos).stats.language_count =
      (get_mock_ai_data repos).language_distribution.length := by
  refine ⟨?_, rfl, rfl⟩
  show (repos.enum.map (fun p => mockProject p.1 p.2)).length = repos.length
  rw [List.length_map, List.enum_length]

/-- Witness for C4 on a concrete one-record input. -/
theorem C4_witness :
    [c4Repo] ≠ [] ∧
    ((get_mock_ai_data [c4Repo]).projects.length = [c4Repo].length ∧
     (get_mock_ai_data [c4Repo]).stats.total_projects = [c4Repo].length ∧
     (get_mock_ai_data [c4Repo]).stats.language_count =
       (get_mock_ai_data [c4Repo]).language_distribution.length) :=
  ⟨by decide, C4_mock_complete [c4Repo] (by decide)⟩

/-! ### C10: the aggregate `average_score` is a constant, not a mean -/

theorem mock_scores_by_position (repos : List Repo) :
    (get_mock_ai_data repos).projects.map (fun p => p.score) =
      (List.range repos.length).map (fun i => if i < 3 then (9 : Int) else 7) := by
  show (repos.enum.map (fun p => mockProject p.1 p.2)).map (fun p => p.score) = _
  rw [List.map_map, List.enum_eq_zip_range]
  have hfun : ((fun p : AiProject => p.score) ∘
      (fun p : Nat × Repo => mockProject p.1 p.2)) =
      ((fun i : Nat => if i < 3 then (9 : Int) else 7) ∘ Prod.fst) := rfl
  rw [hfun, ← List.map_map, List.map_fst_zip _ _ (by simp)]

/-- Claim C10 theorem: the fallback generator's aggregate `average_score` is
the constant 8.2 for every input record sequence, while the per-item scores
it assigns depend only on position (9 for the first three items, 7 for the
rest); on a one-record input the mean of the assigned scores is 9, so the
aggregate is not the mean of the assigned scores. -/
theorem C10_average_score_constant :
    (∀ repos : List Repo,
        (get_mock_ai_data repos).stats.average_score = (8.2 : Rat)) ∧
    (∀ repos : List Repo,
        (get_mock_ai_data repos).projects.map (fun p => p.score) =
          (List.range repos.length).map (fun i => if i < 3 then (9 : Int) else 7)) ∧
    ((get_mock_ai_data [c10Repo]).projects.map (fun p => p.score)).sum = 9 ∧
    (get_mock_ai_data [c10Repo]).projects.length = 1 ∧
    (get_mock_ai_data [c10Repo]).stats.average_score ≠ 9 / 1 := by
  refine ⟨fun repos => rfl, mock_scores_by_position, ?_, ?_, ?_⟩
  · decide
  · decide
  · show (8.2 : Rat) ≠ 9 / 1
    norm_num

/-! ### C1 and C3: a present EnrichmentResult crashes the Renderer -/

/-- Claim C1 theorem (code bug): with a present `EnrichmentResult` — even
one whose `per_item` matches the record — `generate_html` does not return a
document: it raises `NameError`, because the summary/merge assignments are
indented under `if not ai_data:`.  With the result absent, the very same
inputs render to a document. -/
theorem C1_present_ai_raises :
    generate_html "2026-10-12" [c1Repo] (some c1Ai) =
      .error "NameError: name 'projects_data' is not defined" ∧
    ∃ doc, generate_html "2026-10-12" [c1Repo] none = .ok doc :=
  ⟨rfl, ⟨_, rfl⟩⟩

/-- Claim C3 theorem (code bug): the per-record merge fallback of trending.py
lines 220-226 does produce the record's own `description` as displayed text
and the single-element `[language]` tag list when `per_item` has no entry for
the identifier — but with a present `EnrichmentResult` the renderer raises
`NameError` before rendering any entry, because that merge code is only
reachable in the `if not ai_data:` branch. -/
theorem C3_merge_fallback_unreachable :
    (mergeProject c3Ai c3Repo).translation = c3Repo.description ∧
    (mergeProject c3Ai c3Repo).tech_stack = [c3Repo.language] ∧
    generate_html "2026-10-12" [c3Repo] (some c3Ai) =
      .error "NameError: name 'projects_data' is not defined" := by
  refine ⟨?_, ?_, rfl⟩ <;> decide

/-! ### C8: the featured flag and the recommendation badge -/

theorem str_data_append (s t : String) : (s ++ t).data = s.data ++ t.data := by
  cases s
  cases t
  rfl

theorem getD_append_lt {α : Type} (l l2 : List α) (d : α) (n : Nat)
    (h : n < l.length) : (l ++ l2).getD n d = l.getD n d := by
  induction l generalizing n with
  | nil => simp at h
  | cons a t ih =>
      cases n with
      | zero => rfl
      | succ m =>
          simp only [List.cons_append, List.getD_cons_succ]
          exact ih m (by simpa using h)

/-- The badge string and the plain score line are distinct for every score
rendering: they differ at character 12 (`recommend-badge` vs `score-text`
in the class attribute). -/
theorem recommendBadge_ne_scoreText (s t : String) :
    recommendBadgeOf s ≠ scoreTextOf t := by
  intro h
  have h2 : badgeHead.data ++ (s ++ badgeTail).data =
      scoreHead.data ++ (t ++ scoreTail).data := by
    have h1 := congrArg String.data h
    simpa only [recommendBadgeOf, scoreTextOf, str_data_append] using h1
  have h12 : (badgeHead.data ++ (s ++ badgeTail).data).getD 12 ' ' =
      (scoreHead.data ++ (t ++ scoreTail).data).getD 12 ' ' := by rw [h2]
  rw [getD_append_lt _ _ _ _ (by decide), getD_append_lt _ _ _ _ (by decide)]
    at h12
  exact absurd h12 (by decide)

/-- Claim C8 theorem: in the fallback generator each project's
`is_recommended` flag is true exactly when its score is at least 8; the
rendered badge slot of an entry is the distinct recommendation badge when
the flag is true and the plain score line otherwise; and no badge string
ever equals a score-line string, so the badge text appears only when the
flag is true. -/
theorem C8_badge_iff_featured :
    (∀ repos : List Repo, ∀ p ∈ (get_mock_ai_data repos).projects,
        (p.is_recommended = true ↔ p.score ≥ 8)) ∧
    (∀ p : ProjectData, recommend_badge p =
        if p.is_recommended then recommendBadgeOf p.scoreRepr
        else scoreTextOf p.scoreRepr) ∧
    (∀ s t : String, recommendBadgeOf s ≠ scoreTextOf t) := by
  refine ⟨?_, fun p => rfl, recommendBadge_ne_scoreText⟩
  intro repos p hp
  have hp2 : p ∈ repos.enum.map (fun q => mockProject q.1 q.2) := hp
  obtain ⟨q, _, rfl⟩ := List.mem_map.mp hp2
  simp [mockProject]

/-- Witness for C8 at a concrete record and its mock enrichment entry. -/
theorem C8_witness :
    (mockProject 0 c4Repo).is_recommended = true ↔
      (mockProject 0 c4Repo).score ≥ 8 :=
  C8_badge_iff_featured.1 [c4Repo] (mockProject 0 c4Repo)
    (show mockProject 0 c4Repo ∈ [mockProject 0 c4Repo] from
      List.mem_cons_self _ _)

/-! ### C5: the Enrichment Engine never raises -/

/-- Claim C5 theorem: `analyze_with_ai` never raises — for every client
configuration and every outcome of the serialization, API call and parse
oracles it returns normally (`.ok`), and in each failure mode (client not
configured; the request raising; the content failing to parse) the returned
value is the no-result `none`. -/
theorem C5_analyze_never_raises (clientConfigured : Bool)
    (dumps : List Repo → String) (apiCall : String → Except String String)
    (parseJson : String → Except String AiData) (repos : List Repo) :
    (∃ r, analyze_with_ai clientConfigured dumps apiCall parseJson repos =
      .ok r) ∧
    (clientConfigured = false →
      analyze_with_ai clientConfigured dumps apiCall parseJson repos =
        .ok none) ∧
    (∀ e, apiCall (buildPrompt (dumps (repos.take 15))) = .error e →
      analyze_with_ai clientConfigured dumps apiCall parseJson repos =
        .ok none) ∧
    (∀ content e, apiCall (buildPrompt (dumps (repos.take 15))) = .ok content →
      parseJson content = .error e →
      analyze_with_ai clientConfigured dumps apiCall parseJson repos =
        .ok none) := by
  unfold analyze_with_ai
  cases hc : clientConfigured with
  | false => exact ⟨⟨none, rfl⟩, fun _ => rfl, fun _ _ => rfl, fun _ _ _ _ => rfl⟩
  | true =>
      simp only [Bool.not_true, Bool.false_eq_true, if_false]
      refine ⟨?_, fun h => absurd h (by simp), ?_, ?_⟩
      · cases hapi : apiCall (buildPrompt (dumps (repos.take 15))) with
        | error e => exact ⟨none, rfl⟩
        | ok content =>
            cases hp : parseJson content with
            | error e => exact ⟨none, by simp [hp]⟩
            | ok j => exact ⟨some j, by simp [hp]⟩
      · intro e he
        rw [he]
      · intro content e hc2 hp
        rw [hc2]
        simp [hp]

/-- Witness for C5: a configured client whose request raises yields
`.ok none`. -/
theorem C5_witness :
    analyze_with_ai true c5Dumps c5ApiFail c5ParseFail [] = .ok none :=
  (C5_analyze_never_raises true c5Dumps c5ApiFail c5ParseFail []).2.2.1
    "Connection error" rfl

/-! ### C6: a fetch failure is fatal -/

/-- Claim C6 theorem: `fetch_trending` raises exactly when the HTTP status
is not 200 (the success status the code tests for), and any fetch failure —
non-success status or network error — is fatal: the run exits with
code 1. -/
theorem C6_fetch_error_fatal :
    (∀ resp : HttpResponse,
        (∃ e, fetch_trending (.ok resp) = .error e) ↔ resp.status ≠ 200) ∧
    (∀ env : RunEnv, (∃ e, fetch_trending env.response = .error e) →
        (mainRun env).exitCode = 1) := by
  constructor
  · intro resp
    constructor
    · rintro ⟨e, he⟩ hst
      simp only [fetch_trending] at he
      rw [if_neg (by simp [hst])] at he
      exact Except.noConfusion he
    · intro hst
      refine ⟨"Failed to load page https://github.com/trending: " ++
        toString resp.status, ?_⟩
      simp only [fetch_trending]
      rw [if_pos hst]
  · rintro env ⟨e, he⟩
    unfold mainRun
    rw [he]

/-- Witness for C6: an HTTP 500 on the listing page makes the run exit
with code 1. -/
theorem C6_witness : (mainRun c6Env).exitCode = 1 :=
  C6_fetch_error_fatal.2 c6Env
    ((C6_fetch_error_fatal.1 ⟨500, []⟩).mpr (by decide))

/-! ### C2: the preview write happens first, but its failure is fatal -/

/-- Counterexample to claim C2 as stated: a run that is healthy except for
the local preview write (the fetch succeeds with status 200, enrichment is
skipped, both delivery configuration values are set) exits with code 1 —
not 0 — and never reaches the send. -/
theorem C2_counterexample :
    (mainRun c2Env).exitCode = 1 ∧ (mainRun c2Env).exitCode ≠ 0 ∧
      (mainRun c2Env).sendAttempted = false :=
  ⟨rfl, by decide, rfl⟩

/-- Claim C2 amended theorem: the dispatcher does write the preview before
any send — a send is attempted only in a run whose preview write succeeded —
but a failing local write is fatal: the exception propagates to the
top-level handler, the run exits with code 1 and no send is attempted. -/
theorem C2_write_first_write_failure_fatal (env : RunEnv) :
    ((mainRun env).sendAttempted = true → (mainRun env).previewWritten = true) ∧
    (env.writeOk = false →
      (mainRun env).exitCode = 1 ∧ (mainRun env).sendAttempted = false) := by
  unfold mainRun
  split
  · simp
  · split
    · simp
    · cases hw : env.writeOk with
      | false => simp [hw]
      | true =>
          cases hr : env.resendKeySet && env.receiverSet with
          | false => simp [hw, hr]
          | true => simp [hw, hr, send_email]

/-- Witness for C2 at the concrete failing-write environment. -/
theorem C2_witness :
    c2Env.writeOk = false ∧
    ((mainRun c2Env).exitCode = 1 ∧ (mainRun c2Env).sendAttempted = false) :=
  ⟨rfl, (C2_write_first_write_failure_fatal c2Env).2 rfl⟩

end GithubTrending
